import Mathlib

/-!
Verification of the viewport-interaction and animation-lifecycle engine of
`src/js/main.js` (museum brochure site).  Each JavaScript routine relevant to
the frozen claims is shallowly embedded as an executable Lean definition;
JavaScript numbers are modelled as exact rationals (every double is a
rational), DOM side effects as explicit record fields, and the event loop as
explicit event lists consumed by step functions.
-/

/- ==========================================================
   Definitions
   ========================================================== -/

/- ----- Scroll lock counter (main.js lines 64-80) ----- -/

/-- State of the scroll-lock subsystem: the reference counter
`scrollLockCount` (a JavaScript number, modelled as an integer) together with
the presence of the `no-scroll` class on `document.body`. -/
structure LockState where
  count : Int
  noScroll : Bool
deriving Repr, DecidableEq

/-- Embedding of `lockScroll()`: when the counter is 0 the `no-scroll` class
is added, then the counter is incremented. -/
def lockScroll (s : LockState) : LockState :=
  { count := s.count + 1
    noScroll := if s.count = 0 then true else s.noScroll }

/-- Embedding of `unlockScroll()`: the counter becomes
`Math.max(0, scrollLockCount - 1)`; if the result is 0 the `no-scroll` class
is removed. -/
def unlockScroll (s : LockState) : LockState :=
  let c := max 0 (s.count - 1)
  { count := c
    noScroll := if c = 0 then false else s.noScroll }

/-- A call to one of the two scroll-lock entry points. -/
inductive LockCall where
  | lock
  | unlock
deriving Repr, DecidableEq

/-- Execute one scroll-lock call. -/
def applyLockCall (s : LockState) (c : LockCall) : LockState :=
  match c with
  | .lock => lockScroll s
  | .unlock => unlockScroll s

/-- Execute a finite sequence of calls starting from the initial state
(`scrollLockCount = 0`, no `no-scroll` class). -/
def runLockCalls (cs : List LockCall) : LockState :=
  cs.foldl applyLockCall ⟨0, false⟩

/-- Number of `lockScroll()` calls in a call sequence. -/
def numLocks : List LockCall → Nat
  | [] => 0
  | .lock :: t => numLocks t + 1
  | .unlock :: t => numLocks t

/-- Number of `unlockScroll()` calls in a call sequence. -/
def numUnlocks : List LockCall → Nat
  | [] => 0
  | .lock :: t => numUnlocks t
  | .unlock :: t => numUnlocks t + 1

/- ----- Lightbox circular navigation (main.js lines 995-1005) ----- -/

/-- Embedding of the index computation in `showPrev()`:
`(currentIndex - 1 + galleryItems.length) % galleryItems.length`.
JavaScript's `%` truncates toward zero, which is `Int.tmod`. -/
def showPrevIndex (itemCount currentIndex : Int) : Int :=
  Int.tmod (currentIndex - 1 + itemCount) itemCount

/-- Embedding of the index computation in `showNext()`:
`(currentIndex + 1) % galleryItems.length`. -/
def showNextIndex (itemCount currentIndex : Int) : Int :=
  Int.tmod (currentIndex + 1) itemCount

/- ----- Resize broadcaster (main.js lines 296-312) ----- -/

/-- Debounce semantics of the window resize listener: each raw resize signal
clears the pending 200 ms timer and schedules a new one.  Given the sorted
list of signal arrival times, this computes the times at which the timer
actually fires (a timer set at time t is cleared iff the next signal arrives
strictly before t + 200). -/
def fireTimes : List ℚ → List ℚ
  | [] => []
  | [t] => [t + 200]
  | t :: t2 :: rest =>
    if t2 < t + 200 then fireTimes (t2 :: rest)
    else (t + 200) :: fireTimes (t2 :: rest)

/-- A broadcast at time t: `resizeCallbacks.forEach((cb) => cb())` invokes
every registered callback synchronously, in registration order.  Callbacks
are identified by numbers; the result is the invocation log. -/
def broadcastAt (resizeCallbacks : List Nat) (t : ℚ) : List (ℚ × Nat) :=
  resizeCallbacks.map (fun cb => (t, cb))

/-- The complete invocation log produced by a sequence of raw resize signals:
one broadcast per surviving timer, each running all registered callbacks in
order. -/
def resizeInvocationLog (resizeCallbacks : List Nat) (ts : List ℚ) :
    List (ℚ × Nat) :=
  (fireTimes ts).flatMap (broadcastAt resizeCallbacks)

/-- A burst: the signal times are nondecreasing and each signal arrives
strictly less than 200 ms after its predecessor. -/
def isBurst : List ℚ → Bool
  | [] => true
  | [_] => true
  | t :: t2 :: rest => t ≤ t2 && t2 < t + 200 && isBurst (t2 :: rest)

/- ----- Hero particle field (main.js lines 728-852) ----- -/

/-- The double value of `Math.PI` used by the source (JavaScript numbers are
doubles, hence rationals). -/
def jsPI : ℚ := 3.141592653589793

/-- The gold colour palette `COLORS`. -/
def COLORS : List String :=
  ["rgba(197, 165, 90, 0.8)",
   "rgba(212, 186, 122, 0.6)",
   "rgba(158, 131, 62, 0.7)",
   "rgba(255, 215, 0, 0.5)",
   "rgba(218, 165, 32, 0.6)"]

/-- One particle, exactly the object literal built by `createParticle()`. -/
structure Particle where
  x : ℚ
  y : ℚ
  size : ℚ
  speedX : ℚ
  speedY : ℚ
  color : String
  opacity : ℚ
  twinkle : ℚ
  twinkleSpeed : ℚ
deriving Repr, DecidableEq

/-- The `Math.random()` draws consumed by one `createParticle()` call, each
in the interval [0, 1). -/
structure ParticleRand where
  px : ℚ
  py : ℚ
  psize : ℚ
  pvx : ℚ
  pvy : ℚ
  pcolor : ℚ
  pop : ℚ
  ptw : ℚ
  ptws : ℚ
deriving Repr, DecidableEq

/-- Embedding of `createParticle()` for a canvas of size w by h. -/
def createParticle (w h : ℚ) (r : ParticleRand) : Particle :=
  { x := r.px * w
    y := r.py * h
    size := r.psize * 2.5 + 0.5
    speedX := (r.pvx - 0.5) * 0.4
    speedY := -(r.pvy * 0.3) - 0.1
    color := COLORS.getD (Int.toNat ⌊r.pcolor * 5⌋) ""
    opacity := r.pop * 0.5 + 0.3
    twinkle := r.ptw * jsPI * 2
    twinkleSpeed := r.ptws * 0.02 + 0.005 }

/-- Embedding of the per-particle body of `animate()`: advance position and
flicker phase, then wrap particles that left the canvas.  A top exit
(y below -10) reappears at the bottom with a freshly drawn horizontal
position rx * w; the two horizontal wraps follow in source order. -/
def updateParticle (w h rx : ℚ) (p : Particle) : Particle :=
  let x1 := p.x + p.speedX
  let y1 := p.y + p.speedY
  let tw1 := p.twinkle + p.twinkleSpeed
  let x2 := if y1 < -10 then rx * w else x1
  let y2 := if y1 < -10 then h + 10 else y1
  let x3 := if x2 < -10 then w + 10 else x2
  let x4 := if x3 > w + 10 then -10 else x3
  { p with x := x4, y := y2, twinkle := tw1 }

/-- One `animate()` pass over the particle array (`particles.forEach`),
with a fresh random draw per particle for the horizontal re-randomization. -/
def updateParticles (w h : ℚ) (rand : ℕ → ℚ) (ps : List Particle) :
    List Particle :=
  ps.mapIdx (fun i p => updateParticle w h (rand i) p)

/-- n consecutive animation frames, with a fresh random source per frame. -/
def updateSteps (w h : ℚ) (rand : ℕ → ℕ → ℚ) : ℕ → List Particle → List Particle
  | 0, ps => ps
  | n + 1, ps => updateParticles w h (rand n) (updateSteps w h rand n ps)

/-- Embedding of `calcParticleCount()`:
`Math.min(Math.floor(window.innerWidth / 15), 80)`. -/
def calcParticleCount (innerWidth : ℚ) : ℤ :=
  min ⌊innerWidth / 15⌋ 80

/-- Embedding of `initParticles()`: the particle array is emptied and
repopulated with `particleCount` freshly created particles. -/
def initParticles (w h : ℚ) (count : ℤ) (rand : ℕ → ParticleRand) :
    List Particle :=
  (List.range count.toNat).map (fun i => createParticle w h (rand i))

/-- The module-level state of `initHeroParticles()` relevant to the resize
subscriber: canvas dimensions, particle count and array, whether a frame
request is currently scheduled (`animId`), and the visibility flag. -/
structure HeroCanvasState where
  canvasWidth : ℚ
  canvasHeight : ℚ
  particleCount : ℤ
  particles : List Particle
  animPending : Bool
  isHeroVisible : Bool

/-- Embedding of the `onResize` subscriber of `initHeroParticles()` (lines
845-851): cancel any scheduled frame, resize the canvas, recompute the
particle count, rebuild the particle array from scratch, and call `animate()`
(which schedules the next frame) iff the hero is currently visible. -/
def onResizeHeroParticles (innerWidth newWidth newHeight : ℚ)
    (rand : ℕ → ParticleRand) (s : HeroCanvasState) : HeroCanvasState :=
  let s1 : HeroCanvasState := { s with animPending := false }
  let s2 : HeroCanvasState :=
    { s1 with canvasWidth := newWidth, canvasHeight := newHeight }
  let c := calcParticleCount innerWidth
  let s3 : HeroCanvasState :=
    { s2 with particleCount := c
              particles := initParticles newWidth newHeight c rand }
  if s3.isHeroVisible then { s3 with animPending := true } else s3

/- ----- Visibility gating of the particle loop (main.js 798-842) ----- -/

/-- Scheduling state of the particle render loop: the `isHeroVisible` flag
and the number of frame callbacks currently queued with the browser
(each chain of `requestAnimationFrame` calls keeps exactly one queued). -/
structure HeroLoopState where
  isHeroVisible : Bool
  pendingFrames : ℕ
deriving Repr, DecidableEq

/-- One rendering phase of the browser event loop: every queued `animate`
callback runs.  If the hero is hidden, each callback hits the
`if (!isHeroVisible)` guard, sets `animId = null` and returns without
rescheduling; otherwise each callback renders and requests exactly one next
frame. -/
def heroFramePhase (s : HeroLoopState) : HeroLoopState :=
  if s.isHeroVisible then s else { s with pendingFrames := 0 }

/-- Embedding of the IntersectionObserver callback (lines 833-839): record
the new visibility, and when the flag transitions hidden to visible call
`animate()` synchronously, which (being visible) schedules one frame. -/
def heroObserverNotify (isIntersecting : Bool) (s : HeroLoopState) :
    HeroLoopState :=
  let wasVisible := s.isHeroVisible
  let s1 : HeroLoopState := { s with isHeroVisible := isIntersecting }
  if !wasVisible && isIntersecting then
    { s1 with pendingFrames := s1.pendingFrames + 1 }
  else s1

/-- One full browser frame: queued frame callbacks run first, then at most
one IntersectionObserver notification is delivered (observer callbacks are
delivered during the rendering steps, after the frame callbacks of the same
frame, at most once per frame). -/
def heroFrame (obs : Option Bool) (s : HeroLoopState) : HeroLoopState :=
  match obs with
  | none => heroFramePhase s
  | some v => heroObserverNotify v (heroFramePhase s)

/-- Run a sequence of browser frames. -/
def runHeroLoop (evs : List (Option Bool)) (s : HeroLoopState) : HeroLoopState :=
  evs.foldl (fun t e => heroFrame e t) s

/-- State right after `initHeroParticles()` returns: the hero is assumed
visible and the initial `animate()` call has queued one frame. -/
def heroLoopInit : HeroLoopState := ⟨true, 1⟩

/- ----- Navigation section observer (main.js 211-233, 314-322) ----- -/

/-- The configuration a nav IntersectionObserver is created with:
`root: null` (the viewport), `rootMargin` of the form
"-{headerHeight}px 0px -40% 0px" (top margin in pixels, bottom margin as a
percentage of the viewport height), and `threshold: 0`. -/
structure NavObserverConfig where
  rootIsViewport : Bool
  topMarginPx : ℤ
  rightMarginPx : ℤ
  bottomMarginPct : ℤ
  leftMarginPx : ℤ
  threshold : ℚ
deriving Repr, DecidableEq

/-- Module state around `initNavObserver()`: the cached `headerHeight`, the
current observer (if any), and how many observers have been created so far
(each creation disconnects and replaces the previous one). -/
structure NavState where
  headerHeight : ℕ
  observer : Option NavObserverConfig
  rebuildCount : ℕ
deriving Repr, DecidableEq

/-- The configuration built by `initNavObserver()` for a given header
height. -/
def navConfigFor (headerHeight : ℕ) : NavObserverConfig :=
  { rootIsViewport := true
    topMarginPx := -(headerHeight : ℤ)
    rightMarginPx := 0
    bottomMarginPct := -40
    leftMarginPx := 0
    threshold := 0 }

/-- Embedding of `initNavObserver()`: disconnect any previous observer and
create a fresh one whose rootMargin uses the current header height. -/
def initNavObserver (s : NavState) : NavState :=
  { s with observer := some (navConfigFor s.headerHeight)
           rebuildCount := s.rebuildCount + 1 }

/-- Embedding of the first `onResize` subscriber (lines 315-322): when the
header element is absent the callback returns; otherwise it measures the
header and rebuilds the observer only when the measured height differs from
the cached one. -/
def headerResizeCallback (measuredHeight : Option ℕ) (s : NavState) :
    NavState :=
  match measuredHeight with
  | none => s
  | some newHeight =>
    if newHeight ≠ s.headerHeight then
      initNavObserver { s with headerHeight := newHeight }
    else s

/-- Run a sequence of resize broadcasts through the header subscriber. -/
def runNavResize (evs : List (Option ℕ)) (s : NavState) : NavState :=
  evs.foldl (fun t e => headerResizeCallback e t) s

/- ----- Optional-element guards (main.js 728-732, 907-919) ----- -/

/-- Presence of the optional page elements each component depends on,
plus the environment flags read at initialization. -/
structure PageEnv where
  lightbox : Bool
  lightboxImg : Bool
  lightboxCap : Bool
  lightboxClose : Bool
  lightboxPrev : Bool
  lightboxNext : Bool
  lightboxCounter : Bool
  galleryCount : ℕ
  heroCanvas : Bool
  prefersReducedMotion : Bool
  sections : List Bool

/-- Dereferencing a page element: throws when the element is absent.  The
guarded initializers below must never reach this in the error case. -/
def requireEl (present : Bool) : Except String Unit :=
  if present then Except.ok () else Except.error "element not found"

/-- Embedding of `initLightbox()` (lines 907-921): the guard returns early
(a silent no-op, modelled as `ok none`) when any required element or all
gallery items are missing; otherwise the wired-up component (carrying the
gallery item count) is produced, dereferencing each element.  The counter
element is deliberately not part of the guard — `updateCounter()` checks it
separately. -/
def initLightbox (env : PageEnv) : Except String (Option ℕ) :=
  if env.lightbox && env.lightboxImg && env.lightboxCap && env.lightboxClose
      && env.lightboxPrev && env.lightboxNext then
    if env.galleryCount = 0 then Except.ok none
    else
      requireEl env.lightbox >>= fun _ =>
      requireEl env.lightboxImg >>= fun _ =>
      requireEl env.lightboxCap >>= fun _ =>
      requireEl env.lightboxClose >>= fun _ =>
      requireEl env.lightboxPrev >>= fun _ =>
      requireEl env.lightboxNext >>= fun _ =>
      Except.ok (some env.galleryCount)
  else Except.ok none

/-- Embedding of the guards of `initHeroParticles()` (lines 728-732):
return early under reduced motion or when the canvas is absent, otherwise
use the canvas. -/
def initHeroParticlesGuard (env : PageEnv) : Except String (Option Unit) :=
  if env.prefersReducedMotion then Except.ok none
  else if env.heroCanvas then
    requireEl env.heroCanvas >>= fun _ => Except.ok (some ())
  else Except.ok none

/-- The section indices actually observed by `initNavObserver()`:
`if (section) navObserver.observe(section)` skips absent sections. -/
def observedNavSections (env : PageEnv) : List ℕ :=
  (List.range env.sections.length).filter (fun i => env.sections.getD i false)

/-- The page-level initialization pass: each component initializer runs in
turn; an exception in any of them would abort the rest. -/
def initPage (env : PageEnv) :
    Except String (Option ℕ × Option Unit × List ℕ) :=
  initLightbox env >>= fun lb =>
  initHeroParticlesGuard env >>= fun hp =>
  Except.ok (lb, hp, observedNavSections env)

/-- Whether an `Except` computation completed without throwing. -/
def exceptOk {α : Type} : Except String α → Bool
  | Except.ok _ => true
  | Except.error _ => false

/- ----- Lightbox open/close and the scroll lock (main.js 958-993) ----- -/

/-- The DOM-visible state of the lightbox dialog. -/
structure LightboxUI where
  isOpen : Bool
  ariaHidden : Bool
  currentIndex : ℕ
deriving Repr, DecidableEq

/-- Embedding of `openLightbox(index)`: set the index, populate the dialog,
add `is-open`, clear `aria-hidden`, and acquire the scroll lock exactly
once. -/
def openLightbox (index : ℕ) (ui : LightboxUI) (lock : LockState) :
    LightboxUI × LockState :=
  ({ isOpen := true, ariaHidden := false, currentIndex := index },
    lockScroll lock)

/-- Embedding of `closeLightbox()`: kill pending image tweens, remove
`is-open`, set `aria-hidden`, and release the scroll lock exactly once. -/
def closeLightbox (ui : LightboxUI) (lock : LockState) :
    LightboxUI × LockState :=
  ({ ui with isOpen := false, ariaHidden := true }, unlockScroll lock)

/- ----- Lightbox content transitions (main.js 1022-1064) ----- -/

/-- State of the lightbox image element and of the in-flight content
transition.  Content values (src, alt, caption) are identified with the
gallery index they were derived from.  `fadeOutTarget` is the in-flight
fade-out tween (GSAP) whose `onComplete` will swap content to that index;
`listeners` are the load/error listener pairs currently attached to the
image element, tagged with the index of the transition that attached them. -/
structure TransitionState where
  currentIndex : ℕ
  imgSrc : ℕ
  imgAlt : ℕ
  caption : ℕ
  visible : Bool
  fadeOutTarget : Option ℕ
  listeners : List ℕ
deriving Repr, DecidableEq

/-- State right after `openLightbox(index)`: content populated
synchronously, image visible, no tween, no listeners. -/
def lightboxOpenState (index : ℕ) : TransitionState :=
  ⟨index, index, index, index, true, none, []⟩

/-- Embedding of `updateLightboxContent()` (GSAP branch):
`gsap.killTweensOf(lightboxImg)` kills any in-flight fade-out tween — its
`onComplete` never runs — and a new fade-out tween toward the item at the
current index begins. -/
def updateLightboxContent (s : TransitionState) : TransitionState :=
  { s with fadeOutTarget := some s.currentIndex }

/-- Embedding of `showNext()`: advance the index circularly, then run the
content transition. -/
def lbShowNext (itemCount : ℕ) (s : TransitionState) : TransitionState :=
  updateLightboxContent
    { s with currentIndex := (s.currentIndex + 1) % itemCount }

/-- Embedding of `showPrev()`: step the index back circularly, then run the
content transition. -/
def lbShowPrev (itemCount : ℕ) (s : TransitionState) : TransitionState :=
  updateLightboxContent
    { s with currentIndex :=
        (showPrevIndex (itemCount : ℤ) (s.currentIndex : ℤ)).toNat }

/-- `removeEventListener('load'/'error', fadeInLightboxImage)`: the handler
is a single named function, so removal clears every attached pair. -/
def removeLoadListeners (s : TransitionState) : TransitionState :=
  { s with listeners := [] }

/-- `addEventListener('load'/'error', fadeInLightboxImage, once)`. -/
def attachLoadListeners (target : ℕ) (s : TransitionState) : TransitionState :=
  { s with listeners := s.listeners ++ [target] }

/-- The `onComplete` of the fade-out tween: swap alt/caption/counter, remove
stale listeners, attach fresh ones, assign the new src, and if the image is
already complete (`cached`), detach the listeners again and fade in
immediately. -/
def lbFadeOutDone (cached : ℕ → Bool) (s : TransitionState) : TransitionState :=
  match s.fadeOutTarget with
  | none => s
  | some j =>
    let s1 : TransitionState :=
      { s with imgAlt := j, caption := j, visible := false,
               fadeOutTarget := none }
    let s2 := attachLoadListeners j (removeLoadListeners s1)
    let s3 : TransitionState := { s2 with imgSrc := j }
    if cached j then { removeLoadListeners s3 with visible := true } else s3

/-- A load (or error) readiness signal from the image element: if a listener
pair is attached, `fadeInLightboxImage` runs (fades the image in) and the
once-listeners detach themselves; with no listener attached the signal is
discarded. -/
def lbLoadEvent (s : TransitionState) : TransitionState :=
  match s.listeners with
  | [] => s
  | _ :: rest => { s with visible := true, listeners := rest }

/-- Events the transition machine reacts to. -/
inductive LightboxEvent where
  | next
  | prev
  | tweenDone
  | load
deriving Repr, DecidableEq

/-- One step of the transition machine. -/
def lbStep (itemCount : ℕ) (cached : ℕ → Bool) (e : LightboxEvent)
    (s : TransitionState) : TransitionState :=
  match e with
  | .next => lbShowNext itemCount s
  | .prev => lbShowPrev itemCount s
  | .tweenDone => lbFadeOutDone cached s
  | .load => lbLoadEvent s

/-- Run a sequence of events. -/
def lbRun (itemCount : ℕ) (cached : ℕ → Bool) (evs : List LightboxEvent)
    (s : TransitionState) : TransitionState :=
  evs.foldl (fun t e => lbStep itemCount cached e t) s

/- ==========================================================
   Theorems
   ========================================================== -/

/- ----- Helper lemmas for the scroll lock ----- -/

/-- Basic invariant of the lock state: the counter is non-negative and the
`no-scroll` class is present exactly when the counter is positive. -/
def LockInv (s : LockState) : Prop :=
  0 ≤ s.count ∧ (s.noScroll = true ↔ 0 < s.count)

theorem lockInv_apply (s : LockState) (c : LockCall) (h : LockInv s) :
    LockInv (applyLockCall s c) := by
  obtain ⟨h0, hflag⟩ := h
  cases c with
  | lock =>
    refine ⟨?_, ?_⟩
    · simp only [applyLockCall, lockScroll]
      omega
    · simp only [applyLockCall, lockScroll]
      by_cases hc : s.count = 0
      · simp [hc]
      · simp only [if_neg hc]
        rw [hflag]
        omega
  | unlock =>
    refine ⟨?_, ?_⟩
    · simp only [applyLockCall, unlockScroll]
      omega
    · simp only [applyLockCall, unlockScroll]
      by_cases hc : max 0 (s.count - 1) = 0
      · simp only [if_pos hc]
        simp
        omega
      · simp only [if_neg hc]
        rw [hflag]
        omega

theorem lockInv_foldl (cs : List LockCall) :
    ∀ s : LockState, LockInv s → LockInv (cs.foldl applyLockCall s) := by
  induction cs with
  | nil => intro s h; simpa using h
  | cons c t ih =>
    intro s h
    simpa [List.foldl_cons] using ih (applyLockCall s c) (lockInv_apply s c h)

theorem lockInv_run (cs : List LockCall) : LockInv (runLockCalls cs) :=
  lockInv_foldl cs ⟨0, false⟩ ⟨le_refl 0, by simp⟩

theorem numLocks_append (a b : List LockCall) :
    numLocks (a ++ b) = numLocks a + numLocks b := by
  induction a with
  | nil => simp [numLocks]
  | cons c t ih => cases c <;> simp [numLocks, ih] <;> omega

theorem numUnlocks_append (a b : List LockCall) :
    numUnlocks (a ++ b) = numUnlocks a + numUnlocks b := by
  induction a with
  | nil => simp [numUnlocks]
  | cons c t ih => cases c <;> simp [numUnlocks, ih] <;> omega

/-- A call sequence is balanced when no prefix contains more unlock calls
than lock calls. -/
def BalancedCalls (cs : List LockCall) : Prop :=
  ∀ i, i < cs.length + 1 → numUnlocks (cs.take i) ≤ numLocks (cs.take i)

theorem balanced_of_append (cs : List LockCall) (c : LockCall)
    (h : BalancedCalls (cs ++ [c])) : BalancedCalls cs := by
  intro i hi
  have hi' : i ≤ cs.length := by omega
  have := h i (by simp; omega)
  rwa [List.take_append_of_le_length hi'] at this

theorem runLock_count_of_balanced (cs : List LockCall)
    (h : BalancedCalls cs) :
    (runLockCalls cs).count = (numLocks cs : Int) - numUnlocks cs := by
  induction cs using List.reverseRecOn with
  | nil => simp [runLockCalls, numLocks, numUnlocks]
  | append_singleton t c ih =>
    have hbt : BalancedCalls t := balanced_of_append t c h
    have hrun : runLockCalls (t ++ [c]) = applyLockCall (runLockCalls t) c := by
      simp [runLockCalls, List.foldl_append]
    have hcount := ih hbt
    have hinv := lockInv_run t
    cases c with
    | lock =>
      simp [hrun, applyLockCall, lockScroll, numLocks_append, numUnlocks_append,
        numLocks, numUnlocks, hcount]
      omega
    | unlock =>
      have hfull := h (t.length + 1) (by simp)
      have htake : (t ++ [LockCall.unlock]).take (t.length + 1)
          = t ++ [LockCall.unlock] := by
        apply List.take_of_length_le
        simp
      rw [htake] at hfull
      rw [numLocks_append, numUnlocks_append] at hfull
      simp [numLocks, numUnlocks] at hfull
      simp [hrun, applyLockCall, unlockScroll, numLocks_append, numUnlocks_append,
        numLocks, numUnlocks, hcount]
      omega

/-- C1 (counterexample): the claim "the flag is set iff strictly more
lockScroll() than unlockScroll() calls have occurred" is false for the call
sequence `[unlockScroll, lockScroll]`: one call of each has occurred, yet the
`no-scroll` flag is set, because the first `unlockScroll` was floored at 0. -/
theorem lockCounter_C1_cex :
    (runLockCalls [LockCall.unlock, LockCall.lock]).noScroll = true
    ∧ ¬ numUnlocks [LockCall.unlock, LockCall.lock]
        < numLocks [LockCall.unlock, LockCall.lock] := by
  decide

/-- C1 (amended): for every finite sequence of lockScroll()/unlockScroll()
calls starting from count = 0, the counter never goes negative, and an
unlockScroll() call when the counter is already 0 leaves the counter at 0;
moreover, provided no prefix of the sequence contains more unlockScroll()
than lockScroll() calls, the page-level no-scroll flag is set iff strictly
more lockScroll() than unlockScroll() calls have occurred. -/
theorem lockCounter_C1 (cs : List LockCall) :
    0 ≤ (runLockCalls cs).count
    ∧ (∀ s : LockState, s.count = 0 → (unlockScroll s).count = 0)
    ∧ ((∀ i, i < cs.length + 1 →
          numUnlocks (cs.take i) ≤ numLocks (cs.take i)) →
        ((runLockCalls cs).noScroll ↔ numUnlocks cs < numLocks cs)) := by
  refine ⟨(lockInv_run cs).1, ?_, ?_⟩
  · intro s hs
    simp [unlockScroll, hs]
  · intro hbal
    have hcount := runLock_count_of_balanced cs hbal
    have hflag := (lockInv_run cs).2
    rw [hflag, hcount]
    omega

/-- C1 (witness): the amended theorem applied to the concrete balanced
sequence lock, lock, unlock — after it the flag is still set and indeed
strictly more locks than unlocks have occurred. -/
theorem lockCounter_C1_witness :
    ((runLockCalls [LockCall.lock, LockCall.lock, LockCall.unlock]).noScroll
      ↔ numUnlocks [LockCall.lock, LockCall.lock, LockCall.unlock]
          < numLocks [LockCall.lock, LockCall.lock, LockCall.unlock]) :=
  (lockCounter_C1 [LockCall.lock, LockCall.lock, LockCall.unlock]).2.2
    (by decide)

/- ----- C6: modal circular navigation ----- -/

/-- C6: for every itemCount > 0 and every current index i with
0 ≤ i < itemCount, showPrev() sets the index to (i - 1 + itemCount) mod
itemCount and showNext() sets it to (i + 1) mod itemCount, the results lie in
[0, itemCount), and for itemCount = 5 showPrev from 0 yields 4 while showNext
from 4 yields 0. -/
theorem modalIndex_C6 (n i : Int) (hn : 0 < n) (h0 : 0 ≤ i) (h1 : i < n) :
    showPrevIndex n i = (i - 1 + n) % n
    ∧ showNextIndex n i = (i + 1) % n
    ∧ 0 ≤ showPrevIndex n i ∧ showPrevIndex n i < n
    ∧ 0 ≤ showNextIndex n i ∧ showNextIndex n i < n
    ∧ showPrevIndex 5 0 = 4 ∧ showNextIndex 5 4 = 0 := by
  have hne : n ≠ 0 := by omega
  have hprev : showPrevIndex n i = (i - 1 + n) % n := by
    unfold showPrevIndex
    exact Int.tmod_eq_emod (by omega) (by omega)
  have hnext : showNextIndex n i = (i + 1) % n := by
    unfold showNextIndex
    exact Int.tmod_eq_emod (by omega) (by omega)
  refine ⟨hprev, hnext, ?_, ?_, ?_, ?_, by decide, by decide⟩
  · rw [hprev]; exact Int.emod_nonneg _ hne
  · rw [hprev]; exact Int.emod_lt_of_pos _ hn
  · rw [hnext]; exact Int.emod_nonneg _ hne
  · rw [hnext]; exact Int.emod_lt_of_pos _ hn

/-- C6 (witness): the theorem instantiated at itemCount = 5, index 2. -/
theorem modalIndex_C6_witness :
    showPrevIndex 5 2 = (2 - 1 + 5) % 5
    ∧ showNextIndex 5 2 = (2 + 1) % 5
    ∧ 0 ≤ showPrevIndex 5 2 ∧ showPrevIndex 5 2 < 5
    ∧ 0 ≤ showNextIndex 5 2 ∧ showNextIndex 5 2 < 5
    ∧ showPrevIndex 5 0 = 4 ∧ showNextIndex 5 4 = 0 :=
  modalIndex_C6 5 2 (by decide) (by decide) (by decide)

/- ----- C4: resize coalescing ----- -/

theorem fireTimes_burst (ts : List ℚ) (hne : ts ≠ [])
    (hburst : isBurst ts = true) :
    fireTimes ts = [ts.getLast hne + 200] := by
  induction ts with
  | nil => exact absurd rfl hne
  | cons t rest ih =>
    cases rest with
    | nil => simp [fireTimes]
    | cons t2 rest2 =>
      simp only [isBurst, Bool.and_eq_true, decide_eq_true_eq] at hburst
      have hlt : t2 < t + 200 := hburst.1.2
      have htail := ih (by simp) hburst.2
      rw [List.getLast_cons (by simp)]
      simpa [fireTimes, if_pos hlt] using htail

/-- C4: for every burst of N ≥ 1 resize signals in which each signal arrives
within less than the 200 ms quiet period of its predecessor, exactly one
broadcast is produced, executed 200 ms after the last signal of the burst,
and that broadcast invokes every registered callback synchronously in
registration order. -/
theorem resizeDebounce_C4 (ts : List ℚ) (resizeCallbacks : List Nat)
    (hne : ts ≠ [])
    (hburst : isBurst ts = true) :
    fireTimes ts = [ts.getLast hne + 200]
    ∧ resizeInvocationLog resizeCallbacks ts
        = resizeCallbacks.map (fun cb => (ts.getLast hne + 200, cb)) := by
  have hfire := fireTimes_burst ts hne hburst
  refine ⟨hfire, ?_⟩
  simp [resizeInvocationLog, hfire, broadcastAt]

/-- C4 (witness): three signals at 0, 100 and 150 ms (gaps below 200 ms) and
three registered callbacks produce a single broadcast at 350 ms that runs the
callbacks in registration order. -/
theorem resizeDebounce_C4_witness :
    fireTimes [0, 100, 150]
        = [([0, 100, 150] : List ℚ).getLast (by with_unfolding_all decide) + 200]
    ∧ resizeInvocationLog [7, 8, 9] [0, 100, 150]
        = [7, 8, 9].map
            (fun cb =>
              (([0, 100, 150] : List ℚ).getLast (by with_unfolding_all decide)
                  + 200, cb)) :=
  resizeDebounce_C4 [0, 100, 150] [7, 8, 9] (by with_unfolding_all decide)
    (by with_unfolding_all decide)

/- ----- C3: particle wraparound ----- -/

theorem updateParticles_length (w h : ℚ) (rand : ℕ → ℚ) (ps : List Particle) :
    (updateParticles w h rand ps).length = ps.length := by
  simp [updateParticles]

theorem updateSteps_length (w h : ℚ) (rand : ℕ → ℕ → ℚ) (n : ℕ)
    (ps : List Particle) : (updateSteps w h rand n ps).length = ps.length := by
  induction n with
  | zero => rfl
  | succ k ih => simp [updateSteps, updateParticles_length, ih]

/-- C3: in each per-frame update, a particle exiting the top edge reappears
at the bottom edge with re-randomized horizontal position; a particle
exiting a horizontal edge reappears at the opposite horizontal edge at
unchanged (advanced) vertical position; bottom exits cannot occur because
every created particle drifts upward, so the vertical position never exceeds
the bottom wrap line; and the number of particles is invariant across any
number of update steps. -/
theorem particleWrap_C3 (w h rx : ℚ) (p : Particle)
    (hw : 0 ≤ w) (hr0 : 0 ≤ rx) (hr1 : rx < 1) :
    (p.y + p.speedY < -10 →
      (updateParticle w h rx p).y = h + 10
      ∧ (updateParticle w h rx p).x = rx * w)
    ∧ (-10 ≤ p.y + p.speedY → p.x + p.speedX < -10 →
      (updateParticle w h rx p).x = w + 10
      ∧ (updateParticle w h rx p).y = p.y + p.speedY)
    ∧ (-10 ≤ p.y + p.speedY → w + 10 < p.x + p.speedX →
      (updateParticle w h rx p).x = -10
      ∧ (updateParticle w h rx p).y = p.y + p.speedY)
    ∧ (p.speedY < 0 → p.y ≤ h + 10 → (updateParticle w h rx p).y ≤ h + 10)
    ∧ (∀ r : ParticleRand, 0 ≤ r.pvy → (createParticle w h r).speedY < 0)
    ∧ (∀ (rand : ℕ → ℕ → ℚ) (n : ℕ) (ps : List Particle),
        (updateSteps w h rand n ps).length = ps.length) := by
  have hxw0 : (0 : ℚ) ≤ rx * w := mul_nonneg hr0 hw
  have hxww : rx * w ≤ w := mul_le_of_le_one_left hw hr1.le
  refine ⟨?_, ?_, ?_, ?_, ?_, ?_⟩
  · intro hy
    have h2 : ¬ (rx * w < -10) := by linarith
    have h3 : ¬ (rx * w > w + 10) := by linarith
    simp only [updateParticle]
    rw [if_pos hy, if_pos hy, if_neg h2, if_neg h3]
    exact ⟨rfl, rfl⟩
  · intro hy hx
    have hy' : ¬ (p.y + p.speedY < -10) := by linarith
    simp only [updateParticle]
    rw [if_neg hy', if_neg hy', if_pos hx, if_neg (by linarith : ¬ (w + 10 > w + 10))]
    exact ⟨rfl, rfl⟩
  · intro hy hx
    have hy' : ¬ (p.y + p.speedY < -10) := by linarith
    have h2 : ¬ (p.x + p.speedX < -10) := by linarith
    simp only [updateParticle]
    rw [if_neg hy', if_neg hy', if_neg h2, if_pos hx]
    exact ⟨rfl, rfl⟩
  · intro hs hy
    simp only [updateParticle]
    by_cases hcond : p.y + p.speedY < -10
    · rw [if_pos hcond]
    · rw [if_neg hcond]
      show p.y + p.speedY ≤ h + 10
      linarith
  · intro r hr
    have : (0 : ℚ) ≤ r.pvy * 0.3 := by
      apply mul_nonneg hr
      norm_num
    simp only [createParticle]
    show -(r.pvy * 0.3) - 0.1 < 0
    linarith
  · intro rand n ps
    exact updateSteps_length w h rand n ps

/-- C3 (witness): the theorem evaluated on a 100 by 50 canvas with random
draw 1/2 at three concrete particles, one exiting each handled edge, plus a
three-step run on a singleton particle list. -/
theorem particleWrap_C3_witness :
    ((updateParticle 100 50 (1/2) ⟨5, -10, 1, 0, -1, "", 1, 0, 0⟩).y = 50 + 10
      ∧ (updateParticle 100 50 (1/2) ⟨5, -10, 1, 0, -1, "", 1, 0, 0⟩).x
          = (1/2) * 100)
    ∧ ((updateParticle 100 50 (1/2) ⟨-15, 0, 1, -1, -1, "", 1, 0, 0⟩).x
          = 100 + 10
      ∧ (updateParticle 100 50 (1/2) ⟨-15, 0, 1, -1, -1, "", 1, 0, 0⟩).y
          = 0 + -1)
    ∧ ((updateParticle 100 50 (1/2) ⟨111, 0, 1, 0, -1, "", 1, 0, 0⟩).x = -10
      ∧ (updateParticle 100 50 (1/2) ⟨111, 0, 1, 0, -1, "", 1, 0, 0⟩).y
          = 0 + -1)
    ∧ (updateSteps 100 50 (fun _ _ => 1/2) 3
        [⟨5, -10, 1, 0, -1, "", 1, 0, 0⟩]).length
        = [(⟨5, -10, 1, 0, -1, "", 1, 0, 0⟩ : Particle)].length := by
  have H1 := particleWrap_C3 100 50 (1/2) ⟨5, -10, 1, 0, -1, "", 1, 0, 0⟩
    (by with_unfolding_all decide) (by with_unfolding_all decide)
    (by with_unfolding_all decide)
  have H2 := particleWrap_C3 100 50 (1/2) ⟨-15, 0, 1, -1, -1, "", 1, 0, 0⟩
    (by with_unfolding_all decide) (by with_unfolding_all decide)
    (by with_unfolding_all decide)
  have H3 := particleWrap_C3 100 50 (1/2) ⟨111, 0, 1, 0, -1, "", 1, 0, 0⟩
    (by with_unfolding_all decide) (by with_unfolding_all decide)
    (by with_unfolding_all decide)
  refine ⟨H1.1 (by with_unfolding_all decide),
    H2.2.1 (by with_unfolding_all decide) (by with_unfolding_all decide),
    H3.2.2.1 (by with_unfolding_all decide) (by with_unfolding_all decide),
    H1.2.2.2.2.2 (fun _ _ => 1/2) 3 _⟩

/- ----- C5: visibility gating of the render loop ----- -/

theorem heroFrame_pending_le_one (obs : Option Bool) (s : HeroLoopState)
    (h : s.pendingFrames ≤ 1) : (heroFrame obs s).pendingFrames ≤ 1 := by
  cases obs with
  | none =>
    by_cases hv : s.isHeroVisible <;>
      simp [heroFrame, heroFramePhase, hv, h]
  | some v =>
    by_cases hv : s.isHeroVisible <;> cases v <;>
      simp [heroFrame, heroFramePhase, heroObserverNotify, hv, h]

theorem runHeroLoop_pending_le_one (evs : List (Option Bool)) :
    ∀ s : HeroLoopState, s.pendingFrames ≤ 1 →
      (runHeroLoop evs s).pendingFrames ≤ 1 := by
  induction evs with
  | nil => intro s h; simpa [runHeroLoop] using h
  | cons e t ih =>
    intro s h
    simpa [runHeroLoop] using ih (heroFrame e s) (heroFrame_pending_le_one e s h)

/-- C5: starting from the initialized loop (one queued frame), no browser
frame sequence ever leaves more than one frame request queued (no two
concurrent frame-request chains); while hidden a rendering phase leaves zero
requests queued (the in-flight frame's guard exits without rescheduling, so
the loop halts within one frame); a hidden-to-visible notification resumes
the loop with exactly one queued frame; a notification that the hero is
visible while it already was visible changes nothing (no second chain is
started). -/
theorem visibilityGate_C5 :
    (∀ evs : List (Option Bool),
      (runHeroLoop evs heroLoopInit).pendingFrames ≤ 1)
    ∧ (∀ s : HeroLoopState, s.isHeroVisible = false →
        (heroFramePhase s).pendingFrames = 0)
    ∧ (∀ s : HeroLoopState, s.isHeroVisible = false →
        (heroFrame (some true) s).pendingFrames = 1
        ∧ (heroFrame (some true) s).isHeroVisible = true)
    ∧ (∀ s : HeroLoopState, s.isHeroVisible = true →
        heroObserverNotify true s = s) := by
  refine ⟨?_, ?_, ?_, ?_⟩
  · intro evs
    exact runHeroLoop_pending_le_one evs heroLoopInit (by simp [heroLoopInit])
  · intro s hv
    simp [heroFramePhase, hv]
  · intro s hv
    constructor <;>
      simp [heroFrame, heroFramePhase, heroObserverNotify, hv]
  · intro s hv
    obtain ⟨v, pf⟩ := s
    simp only at hv
    subst hv
    rfl

/-- C5 (witness): the theorem evaluated on a concrete frame sequence
(hide, idle frame, show) and on concrete loop states. -/
theorem visibilityGate_C5_witness :
    (runHeroLoop [some false, none, some true] heroLoopInit).pendingFrames ≤ 1
    ∧ (heroFramePhase ⟨false, 1⟩).pendingFrames = 0
    ∧ (heroFrame (some true) ⟨false, 0⟩).pendingFrames = 1
    ∧ heroObserverNotify true ⟨true, 1⟩ = ⟨true, 1⟩ :=
  ⟨visibilityGate_C5.1 [some false, none, some true],
    visibilityGate_C5.2.1 ⟨false, 1⟩ rfl,
    (visibilityGate_C5.2.2.1 ⟨false, 0⟩ rfl).1,
    visibilityGate_C5.2.2.2 ⟨true, 1⟩ rfl⟩

/- ----- C7: resize handling of the particle loop ----- -/

/-- C7: on each resize broadcast, the frame request is cancelled and the
loop resumed iff the hero section is visible, the canvas is resized to the
new dimensions, the particle count is recomputed as
min(floor(innerWidth / 15), 80), and the particle array is replaced by a
freshly initialized one of exactly that size (hence never more than 80
particles), independent of the previous particle array. -/
theorem particleResize_C7 (innerWidth newWidth newHeight : ℚ)
    (rand : ℕ → ParticleRand) (s : HeroCanvasState) :
    (onResizeHeroParticles innerWidth newWidth newHeight rand s).particleCount
        = min ⌊innerWidth / 15⌋ 80
    ∧ (onResizeHeroParticles innerWidth newWidth newHeight rand s).particles
        = initParticles newWidth newHeight (calcParticleCount innerWidth) rand
    ∧ (onResizeHeroParticles innerWidth newWidth newHeight rand
          s).particles.length
        = (min ⌊innerWidth / 15⌋ 80).toNat
    ∧ (onResizeHeroParticles innerWidth newWidth newHeight rand
          s).particles.length ≤ 80
    ∧ (onResizeHeroParticles innerWidth newWidth newHeight rand s).animPending
        = s.isHeroVisible
    ∧ (onResizeHeroParticles innerWidth newWidth newHeight rand s).canvasWidth
        = newWidth
    ∧ (onResizeHeroParticles innerWidth newWidth newHeight rand s).canvasHeight
        = newHeight := by
  have hlen : (initParticles newWidth newHeight (calcParticleCount innerWidth)
      rand).length = (min ⌊innerWidth / 15⌋ 80).toNat := by
    simp [initParticles, calcParticleCount]
  have hs : onResizeHeroParticles innerWidth newWidth newHeight rand s =
      { canvasWidth := newWidth
        canvasHeight := newHeight
        particleCount := calcParticleCount innerWidth
        particles :=
          initParticles newWidth newHeight (calcParticleCount innerWidth) rand
        animPending := s.isHeroVisible
        isHeroVisible := s.isHeroVisible } := by
    by_cases hv : s.isHeroVisible <;> simp [onResizeHeroParticles, hv]
  refine ⟨?_, ?_, ?_, ?_, ?_, ?_, ?_⟩
  · rw [hs]
    rfl
  · rw [hs]
  · rw [hs]
    exact hlen
  · rw [hs]
    show (initParticles newWidth newHeight (calcParticleCount innerWidth)
        rand).length ≤ 80
    rw [hlen]
    omega
  · rw [hs]
  · rw [hs]
  · rw [hs]

/- ----- C8: nav observer configuration and rebuild condition ----- -/

theorem navResize_config_inv (evs : List (Option ℕ)) :
    ∀ s : NavState, s.observer = some (navConfigFor s.headerHeight) →
      (runNavResize evs s).observer
        = some (navConfigFor (runNavResize evs s).headerHeight) := by
  induction evs with
  | nil => intro s h; simpa [runNavResize] using h
  | cons e t ih =>
    intro s h
    have hstep : (headerResizeCallback e s).observer
        = some (navConfigFor (headerResizeCallback e s).headerHeight) := by
      cases e with
      | none => simpa [headerResizeCallback] using h
      | some newHeight =>
        by_cases hchg : newHeight = s.headerHeight
        · simpa [headerResizeCallback, hchg] using h
        · simp [headerResizeCallback, hchg, initNavObserver]
    simpa [runNavResize] using ih (headerResizeCallback e s) hstep

/-- C8: the section-visibility observer is always configured with the
viewport as root, top margin equal to the negative of the current header
height, bottom margin of -40% of the viewport height and threshold 0 (this
holds at creation and is preserved by every resize broadcast); on a resize
broadcast the observer is torn down and rebuilt iff the measured header
height differs from the cached value: an unchanged height leaves the whole
state untouched, a changed height bumps the rebuild counter by one and
installs a fresh configuration for the new height. -/
theorem navObserver_C8 (initialHeight : ℕ) (evs : List (Option ℕ)) :
    (runNavResize evs (initNavObserver ⟨initialHeight, none, 0⟩)).observer
      = some (navConfigFor
          (runNavResize evs
            (initNavObserver ⟨initialHeight, none, 0⟩)).headerHeight)
    ∧ (∀ (t : NavState) (newHeight : ℕ), newHeight = t.headerHeight →
        headerResizeCallback (some newHeight) t = t)
    ∧ (∀ (t : NavState) (newHeight : ℕ), newHeight ≠ t.headerHeight →
        (headerResizeCallback (some newHeight) t).rebuildCount
            = t.rebuildCount + 1
        ∧ (headerResizeCallback (some newHeight) t).observer
            = some (navConfigFor newHeight)
        ∧ (headerResizeCallback (some newHeight) t).headerHeight = newHeight)
    ∧ (∀ t : NavState, headerResizeCallback none t = t) := by
  refine ⟨?_, ?_, ?_, ?_⟩
  · exact navResize_config_inv evs (initNavObserver ⟨initialHeight, none, 0⟩)
      (by simp [initNavObserver])
  · intro t newHeight hsame
    simp [headerResizeCallback, hsame]
  · intro t newHeight hdiff
    refine ⟨?_, ?_, ?_⟩ <;> simp [headerResizeCallback, hdiff, initNavObserver]
  · intro t
    rfl

/-- C8 (witness): the theorem evaluated on a concrete broadcast sequence
starting from header height 80, with a same-height and a changed-height
measurement at concrete states. -/
theorem navObserver_C8_witness :
    (runNavResize [some 60, none, some 60]
        (initNavObserver ⟨80, none, 0⟩)).observer
      = some (navConfigFor
          (runNavResize [some 60, none, some 60]
            (initNavObserver ⟨80, none, 0⟩)).headerHeight)
    ∧ headerResizeCallback (some 80) ⟨80, some (navConfigFor 80), 1⟩
        = ⟨80, some (navConfigFor 80), 1⟩
    ∧ (headerResizeCallback (some 60) ⟨80, some (navConfigFor 80), 1⟩).rebuildCount
        = 1 + 1
    ∧ headerResizeCallback none ⟨80, some (navConfigFor 80), 1⟩
        = ⟨80, some (navConfigFor 80), 1⟩ :=
  ⟨(navObserver_C8 80 [some 60, none, some 60]).1,
    (navObserver_C8 80 []).2.1 ⟨80, some (navConfigFor 80), 1⟩ 80 rfl,
    ((navObserver_C8 80 []).2.2.1 ⟨80, some (navConfigFor 80), 1⟩ 60
      (by decide)).1,
    (navObserver_C8 80 []).2.2.2 ⟨80, some (navConfigFor 80), 1⟩⟩

/- ----- C10: open/close is balanced on the scroll lock ----- -/

/-- C10: `openLightbox` acquires the scroll lock exactly once (the counter
goes up by exactly one) and `closeLightbox` releases it exactly once, so an
open-then-close round trip restores both the counter and the no-scroll flag
to their values before the open; in particular with the mobile menu holding
the lock (one outstanding acquire), opening and closing the lightbox leaves
scrolling still suppressed. -/
theorem lightboxLock_C10 (index : ℕ) (ui : LightboxUI) (lock : LockState)
    (hnn : 0 ≤ lock.count) (hflag : lock.noScroll = true ↔ 0 < lock.count) :
    (openLightbox index ui lock).2.count = lock.count + 1
    ∧ (closeLightbox (openLightbox index ui lock).1
        (openLightbox index ui lock).2).2.count = lock.count
    ∧ (closeLightbox (openLightbox index ui lock).1
        (openLightbox index ui lock).2).2.noScroll = lock.noScroll
    ∧ (closeLightbox
        (openLightbox 2 ⟨false, true, 0⟩ (lockScroll ⟨0, false⟩)).1
        (openLightbox 2 ⟨false, true, 0⟩ (lockScroll ⟨0, false⟩)).2).2.noScroll
        = true := by
  refine ⟨rfl, ?_, ?_, by decide⟩
  · simp only [openLightbox, closeLightbox, lockScroll, unlockScroll]
    omega
  · simp only [openLightbox, closeLightbox, lockScroll, unlockScroll]
    by_cases hc : lock.count = 0
    · have : lock.noScroll = false := by
        cases hb : lock.noScroll
        · rfl
        · exact absurd (hflag.mp hb) (by omega)
      simp [hc, this]
    · have hmax : max 0 (lock.count + 1 - 1) = lock.count := by omega
      simp only [hmax, if_neg hc]

/-- C10 (witness): the theorem evaluated with no other lock holder: opening
bumps the counter to 1, the round trip restores counter 0 and clears the
flag. -/
theorem lightboxLock_C10_witness :
    (openLightbox 1 ⟨false, true, 0⟩ ⟨0, false⟩).2.count = 0 + 1
    ∧ (closeLightbox (openLightbox 1 ⟨false, true, 0⟩ ⟨0, false⟩).1
        (openLightbox 1 ⟨false, true, 0⟩ ⟨0, false⟩).2).2.count = 0
    ∧ (closeLightbox (openLightbox 1 ⟨false, true, 0⟩ ⟨0, false⟩).1
        (openLightbox 1 ⟨false, true, 0⟩ ⟨0, false⟩).2).2.noScroll = false
    ∧ (closeLightbox
        (openLightbox 2 ⟨false, true, 0⟩ (lockScroll ⟨0, false⟩)).1
        (openLightbox 2 ⟨false, true, 0⟩ (lockScroll ⟨0, false⟩)).2).2.noScroll
        = true :=
  lightboxLock_C10 1 ⟨false, true, 0⟩ ⟨0, false⟩ (by decide) (by decide)

/- ----- C9: silent no-op on missing elements ----- -/

theorem ok_bind {α β : Type} (a : α) (f : α → Except String β) :
    (Except.ok a >>= f) = f a := rfl

theorem exists_ok_of_exceptOk {α : Type} (e : Except String α)
    (h : exceptOk e = true) : ∃ a, e = Except.ok a := by
  cases e with
  | error err => exact absurd h (by simp [exceptOk])
  | ok a => exact ⟨a, rfl⟩

theorem exceptOk_initLightbox (env : PageEnv) :
    exceptOk (initLightbox env) = true := by
  unfold initLightbox
  by_cases hg : (env.lightbox && env.lightboxImg && env.lightboxCap
      && env.lightboxClose && env.lightboxPrev && env.lightboxNext) = true
  · rw [if_pos hg]
    by_cases hgc : env.galleryCount = 0
    · rw [if_pos hgc]
      rfl
    · rw [if_neg hgc]
      simp only [Bool.and_eq_true] at hg
      obtain ⟨⟨⟨⟨⟨h1, h2⟩, h3⟩, h4⟩, h5⟩, h6⟩ := hg
      rw [h1, h2, h3, h4, h5, h6]
      rfl
  · rw [if_neg hg]
    rfl

theorem exceptOk_initHeroParticlesGuard (env : PageEnv) :
    exceptOk (initHeroParticlesGuard env) = true := by
  unfold initHeroParticlesGuard
  by_cases hm : env.prefersReducedMotion = true
  · rw [if_pos hm]
    rfl
  · rw [if_neg hm]
    by_cases hc : env.heroCanvas = true
    · rw [if_pos hc, hc]
      rfl
    · rw [if_neg hc]
      rfl

theorem exceptOk_initPage (env : PageEnv) : exceptOk (initPage env) = true := by
  obtain ⟨lb, hlb⟩ := exists_ok_of_exceptOk _ (exceptOk_initLightbox env)
  obtain ⟨hp, hhp⟩ := exists_ok_of_exceptOk _ (exceptOk_initHeroParticlesGuard env)
  unfold initPage
  rw [hlb, ok_bind, hhp, ok_bind]
  rfl

/-- C9: page initialization never throws for any combination of present and
absent optional elements; a lightbox with any required element missing
initializes to a silent no-op, as does the particle field without its
canvas; a missing navigable section is simply not observed; and the absence
of the modal changes nothing about the other components' initialization. -/
theorem missingElements_C9 (env : PageEnv) :
    exceptOk (initPage env) = true
    ∧ ((env.lightbox && env.lightboxImg && env.lightboxCap
        && env.lightboxClose && env.lightboxPrev && env.lightboxNext) = false →
        initLightbox env = Except.ok none)
    ∧ (env.heroCanvas = false → initHeroParticlesGuard env = Except.ok none)
    ∧ (∀ i : ℕ, env.sections.getD i false = false →
        i ∉ observedNavSections env)
    ∧ initHeroParticlesGuard { env with lightbox := false }
        = initHeroParticlesGuard env
    ∧ observedNavSections { env with lightbox := false }
        = observedNavSections env := by
  refine ⟨exceptOk_initPage env, ?_, ?_, ?_, rfl, rfl⟩
  · intro hmiss
    unfold initLightbox
    rw [if_neg (by simp [hmiss])]
  · intro hmiss
    unfold initHeroParticlesGuard
    by_cases hm : env.prefersReducedMotion = true
    · rw [if_pos hm]
    · rw [if_neg hm, if_neg (by simp [hmiss])]
  · intro i hi hmem
    simp only [observedNavSections, List.mem_filter] at hmem
    have hcontra := hmem.2
    rw [hi] at hcontra
    exact absurd hcontra (by decide)

/-- C9 (witness): a page with the lightbox root missing but everything else
present: initialization completes, the lightbox is a no-op, the hidden
canvas makes the particle field a no-op, and the absent section at index 1
is not observed. -/
theorem missingElements_C9_witness :
    exceptOk (initPage ⟨false, true, true, true, true, true, true, 3,
        false, false, [true, false, true, true]⟩) = true
    ∧ initLightbox ⟨false, true, true, true, true, true, true, 3,
        false, false, [true, false, true, true]⟩ = Except.ok none
    ∧ initHeroParticlesGuard ⟨false, true, true, true, true, true, true, 3,
        false, false, [true, false, true, true]⟩ = Except.ok none
    ∧ (1 : ℕ) ∉ observedNavSections ⟨false, true, true, true, true, true, true,
        3, false, false, [true, false, true, true]⟩ := by
  have H := missingElements_C9 ⟨false, true, true, true, true, true, true, 3,
    false, false, [true, false, true, true]⟩
  exact ⟨H.1, H.2.1 (by decide), H.2.2.1 rfl, H.2.2.2.1 1 (by decide)⟩

/- ----- C2: stale transition suppression ----- -/

/-- Invariant of the transition machine: at most one load/error listener
pair is ever attached (stale pairs are removed before new ones are
attached); an in-flight fade-out tween always targets the current index;
and in tween-free states the listener set determines the content: with no
listeners the displayed content matches the current index and the image is
faded in, with one listener the content matches its tag and the image is
faded out awaiting readiness. -/
def TransInv (s : TransitionState) : Prop :=
  s.listeners.length ≤ 1
  ∧ (∀ j, s.fadeOutTarget = some j → j = s.currentIndex)
  ∧ (s.fadeOutTarget = none →
      (s.listeners = [] →
        s.imgSrc = s.currentIndex ∧ s.imgAlt = s.currentIndex
        ∧ s.caption = s.currentIndex ∧ s.visible = true)
      ∧ (∀ j t, s.listeners = j :: t →
          j = s.currentIndex ∧ s.imgSrc = j ∧ s.imgAlt = j ∧ s.caption = j
          ∧ s.visible = false ∧ t = []))

theorem transInv_open (index : ℕ) : TransInv (lightboxOpenState index) := by
  refine ⟨by simp [lightboxOpenState], ?_, ?_⟩
  · intro j hj
    exact absurd hj (by simp [lightboxOpenState])
  · intro _
    refine ⟨fun _ => by simp [lightboxOpenState], fun j t hc => ?_⟩
    exact absurd hc (by simp [lightboxOpenState])

theorem transInv_update (s : TransitionState) (newIndex : ℕ)
    (h : TransInv s) :
    TransInv (updateLightboxContent { s with currentIndex := newIndex }) := by
  obtain ⟨hlen, _, _⟩ := h
  refine ⟨by simpa [updateLightboxContent] using hlen, ?_, ?_⟩
  · intro j hj
    simpa [updateLightboxContent] using hj.symm
  · intro hn
    exact absurd hn (by simp [updateLightboxContent])

theorem transInv_fadeOutDone (cached : ℕ → Bool) (s : TransitionState)
    (h : TransInv s) : TransInv (lbFadeOutDone cached s) := by
  obtain ⟨hlen, htgt, hnone⟩ := h
  cases htf : s.fadeOutTarget with
  | none =>
    have : lbFadeOutDone cached s = s := by simp [lbFadeOutDone, htf]
    rw [this]
    exact ⟨hlen, htgt, hnone⟩
  | some j =>
    have hj : j = s.currentIndex := htgt j htf
    by_cases hc : cached j = true
    · have hres : lbFadeOutDone cached s =
          { s with imgSrc := j, imgAlt := j, caption := j, visible := true,
                   fadeOutTarget := none, listeners := [] } := by
        simp [lbFadeOutDone, htf, hc, removeLoadListeners, attachLoadListeners]
      rw [hres]
      refine ⟨by simp, ?_, ?_⟩
      · intro j2 hj2
        exact absurd hj2 (by simp)
      · intro _
        refine ⟨fun _ => by simp [hj], fun j2 t2 hc2 => ?_⟩
        exact absurd hc2 (by simp)
    · have hres : lbFadeOutDone cached s =
          { s with imgSrc := j, imgAlt := j, caption := j, visible := false,
                   fadeOutTarget := none, listeners := [j] } := by
        simp [lbFadeOutDone, htf, hc, removeLoadListeners, attachLoadListeners]
      rw [hres]
      refine ⟨by simp, ?_, ?_⟩
      · intro j2 hj2
        exact absurd hj2 (by simp)
      · intro _
        refine ⟨fun hnil => absurd hnil (by simp), fun j2 t2 hc2 => ?_⟩
        simp only [List.cons.injEq] at hc2
        obtain ⟨hj2, ht2⟩ := hc2
        subst hj2
        subst ht2
        simp [hj]

theorem transInv_load (s : TransitionState) (h : TransInv s) :
    TransInv (lbLoadEvent s) := by
  obtain ⟨hlen, htgt, hnone⟩ := h
  cases hl : s.listeners with
  | nil =>
    have : lbLoadEvent s = s := by simp [lbLoadEvent, hl]
    rw [this]
    exact ⟨hlen, htgt, hnone⟩
  | cons j t =>
    have ht : t = [] := by
      rw [hl] at hlen
      simp only [List.length_cons] at hlen
      exact List.eq_nil_of_length_eq_zero (by omega)
    subst ht
    have hres : lbLoadEvent s = { s with visible := true, listeners := [] } := by
      simp [lbLoadEvent, hl]
    rw [hres]
    refine ⟨by simp, ?_, ?_⟩
    · intro j2 hj2
      simp only at hj2
      exact htgt j2 hj2
    · intro hn
      simp only at hn
      obtain ⟨h1, h2, h3, h4, h5, _⟩ := (hnone hn).2 j [] hl
      refine ⟨fun _ => by simp [h1 ▸ h2, h1 ▸ h3, h1 ▸ h4], fun j2 t2 hc2 => ?_⟩
      exact absurd hc2 (by simp)

theorem transInv_step (itemCount : ℕ) (cached : ℕ → Bool) (e : LightboxEvent)
    (s : TransitionState) (h : TransInv s) :
    TransInv (lbStep itemCount cached e s) := by
  cases e with
  | next => exact transInv_update s _ h
  | prev => exact transInv_update s _ h
  | tweenDone => exact transInv_fadeOutDone cached s h
  | load => exact transInv_load s h

theorem transInv_run (itemCount : ℕ) (cached : ℕ → Bool)
    (evs : List LightboxEvent) :
    ∀ s : TransitionState, TransInv s →
      TransInv (lbRun itemCount cached evs s) := by
  induction evs with
  | nil => intro s h; simpa [lbRun] using h
  | cons e t ih =>
    intro s h
    simpa [lbRun] using
      ih (lbStep itemCount cached e s) (transInv_step itemCount cached e s h)

/-- C2 (counterexample): the claim that any readiness signal belonging to a
superseded transition is discarded (no visual update) is false.  Open at
index 0 with 3 items and an uncached image: showNext() starts transition to
item 1; its fade-out completes (listeners for item 1 attached, src set);
showNext() is invoked again (current transition now targets item 2) before
item 1 signals readiness.  The machine reaches a state whose attached
listener still belongs to the superseded transition (tag 1, current index
2), and delivering the superseded image's load event does produce a visual
update: the image (still showing src 1) is faded back in. -/
theorem staleTransition_C2_cex :
    ((lbRun 3 (fun _ => false) [LightboxEvent.next, LightboxEvent.tweenDone,
        LightboxEvent.next] (lightboxOpenState 0)).currentIndex = 2
      ∧ (lbRun 3 (fun _ => false) [LightboxEvent.next, LightboxEvent.tweenDone,
          LightboxEvent.next] (lightboxOpenState 0)).listeners = [1]
      ∧ (lbRun 3 (fun _ => false) [LightboxEvent.next, LightboxEvent.tweenDone,
          LightboxEvent.next] (lightboxOpenState 0)).imgSrc = 1
      ∧ (lbRun 3 (fun _ => false) [LightboxEvent.next, LightboxEvent.tweenDone,
          LightboxEvent.next] (lightboxOpenState 0)).visible = false)
    ∧ (lbLoadEvent (lbRun 3 (fun _ => false) [LightboxEvent.next,
        LightboxEvent.tweenDone, LightboxEvent.next]
        (lightboxOpenState 0))).visible = true
    ∧ (lbLoadEvent (lbRun 3 (fun _ => false) [LightboxEvent.next,
        LightboxEvent.tweenDone, LightboxEvent.next]
        (lightboxOpenState 0))).imgSrc = 1 := by
  decide

/-- C2 (amended): if showNext()/showPrev() is invoked again before the
previous transition's image signals readiness, stale load/error listeners
are removed before new ones are attached — at most one listener pair is ever
attached in any reachable state — a readiness signal arriving once its
listeners have been removed is discarded outright (the state is unchanged),
and once the machine is quiescent (no in-flight tween, no attached listener)
the displayed src, alt and caption are those of the most recent transition's
target and the image is faded in; however, a readiness signal of the
superseded transition arriving while the superseding fade-out is still in
flight is not discarded: it fades the superseded image back in (see the
counterexample). -/
theorem staleTransition_C2 (itemCount : ℕ) (cached : ℕ → Bool) (index : ℕ)
    (evs : List LightboxEvent) :
    (lbRun itemCount cached evs (lightboxOpenState index)).listeners.length ≤ 1
    ∧ ((lbRun itemCount cached evs (lightboxOpenState index)).fadeOutTarget
          = none →
        (lbRun itemCount cached evs (lightboxOpenState index)).listeners = [] →
        (lbRun itemCount cached evs (lightboxOpenState index)).imgSrc
            = (lbRun itemCount cached evs (lightboxOpenState index)).currentIndex
        ∧ (lbRun itemCount cached evs (lightboxOpenState index)).imgAlt
            = (lbRun itemCount cached evs (lightboxOpenState index)).currentIndex
        ∧ (lbRun itemCount cached evs (lightboxOpenState index)).caption
            = (lbRun itemCount cached evs (lightboxOpenState index)).currentIndex
        ∧ (lbRun itemCount cached evs (lightboxOpenState index)).visible = true)
    ∧ (∀ t : TransitionState, t.listeners = [] → lbLoadEvent t = t) := by
  have hinv := transInv_run itemCount cached evs (lightboxOpenState index)
    (transInv_open index)
  refine ⟨hinv.1, ?_, ?_⟩
  · intro hn hl
    exact (hinv.2.2 hn).1 hl
  · intro t hl
    simp [lbLoadEvent, hl]

/-- C2 (witness): the amended theorem evaluated on the burst
next, fade-out completion, readiness: the machine quiesces displaying the
content of the latest transition target, faded in. -/
theorem staleTransition_C2_witness :
    (lbRun 3 (fun _ => false) [LightboxEvent.next, LightboxEvent.tweenDone,
        LightboxEvent.load] (lightboxOpenState 0)).listeners.length ≤ 1
    ∧ ((lbRun 3 (fun _ => false) [LightboxEvent.next, LightboxEvent.tweenDone,
          LightboxEvent.load] (lightboxOpenState 0)).imgSrc
        = (lbRun 3 (fun _ => false) [LightboxEvent.next, LightboxEvent.tweenDone,
            LightboxEvent.load] (lightboxOpenState 0)).currentIndex)
    ∧ (lbRun 3 (fun _ => false) [LightboxEvent.next, LightboxEvent.tweenDone,
        LightboxEvent.load] (lightboxOpenState 0)).visible = true
    ∧ lbLoadEvent (lightboxOpenState 0) = lightboxOpenState 0 := by
  have H := staleTransition_C2 3 (fun _ => false) 0
    [LightboxEvent.next, LightboxEvent.tweenDone, LightboxEvent.load]
  have H2 := H.2.1 (by decide) (by decide)
  exact ⟨H.1, H2.1, H2.2.2.2, H.2.2 (lightboxOpenState 0) (by decide)⟩
